import Mathlib

/-!
Verification development for the dfxlibs digital-forensics library.

Python sources are embedded shallowly: byte strings become `List Nat`
(each element a byte value), Python `str` becomes `String` or a list of
code points, Python arbitrary-precision integers become `Nat`/`Int`,
exceptions become `Except`/`Option`, and sqlite tables become lists of
rows.  Every definition mirrors the corresponding source function; doc
comments name the origin.
-/

namespace Dfxlibs

/-! ## Byte-buffer helpers (Python bytes, struct.unpack, bytes.index) -/

/-- Python `data[i]` on bytes, total with default 0 (all uses are in-bounds). -/
def bget (data : List Nat) (i : Nat) : Nat := data.getD i 0

/-- Python slice `data[start:start+len]`. -/
def bslice (data : List Nat) (start len : Nat) : List Nat :=
  (data.drop start).take len

/-- struct little-endian `<H` at offset `i`. -/
def le16 (data : List Nat) (i : Nat) : Nat :=
  bget data i + 256 * bget data (i + 1)

/-- struct little-endian `<L` at offset `i`. -/
def le32 (data : List Nat) (i : Nat) : Nat :=
  bget data i + 256 * bget data (i + 1) + 65536 * bget data (i + 2) +
    16777216 * bget data (i + 3)

/-- struct little-endian `<Q` at offset `i`. -/
def le64 (data : List Nat) (i : Nat) : Nat :=
  le32 data i + 4294967296 * le32 data (i + 4)

/-- Whether `sub` occurs in `data` starting exactly at position `i`. -/
def matchesAt (data sub : List Nat) (i : Nat) : Bool :=
  bslice data i sub.length == sub

/-- Python `data.index(sub, start, fin)` restricted to byte strings:
smallest `i ≥ start` with the occurrence contained in `[start, fin)`;
`none` models the `ValueError`. -/
def bytes_index (data sub : List Nat) (start fin : Nat) : Option Nat :=
  (List.range (data.length + 1)).find? fun i =>
    decide (start ≤ i) && decide (i + sub.length ≤ fin) && matchesAt data sub i

theorem bytes_index_bounds {data sub : List Nat} {start fin c : Nat}
    (h : bytes_index data sub start fin = some c) :
    start ≤ c ∧ c + sub.length ≤ fin := by
  have hp := List.find?_some h
  simp only [Bool.and_eq_true, decide_eq_true_eq] at hp
  exact ⟨hp.1.1, hp.1.2⟩

/-! ## Windows time helpers (`dfxlibs/windows/helpers/__init__.py`)

`EPOCH_AS_FILETIME = 116444736e9` and `MAX_FILETIME = 151478208e9` are
Python floats whose values are exactly the integers below (both have
small odd parts, hence are exactly representable as doubles), and
`HUNDREDS_OF_NANOSECONDS = 10e6 = 10^7`. -/

def EPOCH_AS_FILETIME : Nat := 116444736000000000

def MAX_FILETIME : Nat := 151478208000000000

def HUNDREDS_OF_NANOSECONDS : Nat := 10000000

/-- `filetime_to_dt`: converts a Windows filetime to a datetime, here
represented by its (exact, rational) number of seconds since the Unix
epoch 1970-01-01T00:00:00Z.  Raises `ValueError` below the epoch. -/
def filetime_to_dt (filetime : Nat) : Except String ℚ :=
  if filetime < EPOCH_AS_FILETIME then
    .error "cannot convert filetime before 1970-01-01"
  else
    .ok (((filetime : ℚ) - (EPOCH_AS_FILETIME : ℚ)) / (HUNDREDS_OF_NANOSECONDS : ℚ))

/-- Days from 1970-01-01 to the civil (proleptic Gregorian) date y-m-d;
the standard days-from-civil algorithm, used to give calendar meaning to
epoch-second values in the statements. -/
def days_from_civil (y : Int) (m d : Nat) : Int :=
  let y' : Int := if m ≤ 2 then y - 1 else y
  let era : Int := (if 0 ≤ y' then y' else y' - 399) / 400
  let yoe : Int := y' - era * 400
  let doy : Int := (153 * (if 2 < m then (m : Int) - 3 else (m : Int) + 9) + 2) / 5 + d - 1
  let doe : Int := yoe * 365 + yoe / 4 - yoe / 100 + doy
  era * 146097 + doe - 719468

/-- Seconds from the Unix epoch to midnight UTC of the civil date y-m-d. -/
def civil_epoch_seconds (y : Int) (m d : Nat) : ℚ :=
  ((days_from_civil y m d : Int) : ℚ) * 86400

/-! ## Windows file-attribute helpers (`dfxlibs/windows/helpers/__init__.py`) -/

def ALL_FILE_ATTRIBUTE : Nat :=
  0x20 ||| 0x800 ||| 0x40 ||| 0x10 ||| 0x4000 ||| 0x2 ||| 0x8000 ||| 0x80 ||| 0x2000 |||
  0x20000 ||| 0x1000 ||| 0x1 ||| 0x400000 ||| 0x40000 ||| 0x400 ||| 0x200 ||| 0x4 |||
  0x100 ||| 0x10000

/-- `FILE_ATTRIBUTE_DESCRIPTIONS`, in the source's (dict-insertion) order. -/
def FILE_ATTRIBUTE_DESCRIPTIONS : List (Nat × String) :=
  [(0x20, "Archive"), (0x800, "Compressed"), (0x40, "Device"), (0x10, "Directory"),
   (0x4000, "Encrypted"), (0x2, "Hidden"), (0x8000, "Integrity_Stream"), (0x80, "Normal"),
   (0x2000, "Not_Content_Indexed"), (0x20000, "No_Scrub_Data"), (0x1000, "Offline"),
   (0x1, "ReadOnly"), (0x400000, "Recall_On_Data_Access"), (0x40000, "Recall_On_Open"),
   (0x400, "Reparse_Point"), (0x200, "Sparse"), (0x4, "System"), (0x100, "Temporary"),
   (0x10000, "Virtual")]

/-- Python `' / '.join(parts)`. -/
def joinSlashSep : List String → String
  | [] => ""
  | [s] => s
  | s :: rest => s ++ " / " ++ joinSlashSep rest

/-- `hr_file_attribute`: renders the set bits of a file-attribute bitmap. -/
def hr_file_attribute (file_attribute : Nat) : String :=
  joinSlashSep ((FILE_ATTRIBUTE_DESCRIPTIONS.filter
    fun p => p.1 &&& file_attribute ≠ 0).map Prod.snd)

/-! ## USN record V2 (`dfxlibs/windows/usnjournal/usnrecordv2.py`) -/

def USN_REASON_BASIC_INFO_CHANGE : Nat := 0x00008000
def USN_REASON_CLOSE : Nat := 0x80000000
def USN_REASON_FILE_CREATE : Nat := 0x00000100
def USN_REASON_FILE_DELETE : Nat := 0x00000200
def USN_REASON_RENAME_NEW_NAME : Nat := 0x00002000
def USN_REASON_RENAME_OLD_NAME : Nat := 0x00001000

def ALL_USN_REASON : Nat :=
  0x00008000 ||| 0x80000000 ||| 0x00020000 ||| 0x00000002 ||| 0x00000001 ||| 0x00000004 |||
  0x00000400 ||| 0x00040000 ||| 0x00000100 ||| 0x00000200 ||| 0x00010000 ||| 0x00004000 |||
  0x00800000 ||| 0x00000020 ||| 0x00000010 ||| 0x00000040 ||| 0x00080000 ||| 0x00002000 |||
  0x00001000 ||| 0x00100000 ||| 0x00000800 ||| 0x00200000 ||| 0x00400000 ||| 0x01000000

/-- `USN_REASON_DESCRIPTION`, in the source's (dict-insertion) order. -/
def USN_REASON_DESCRIPTION : List (Nat × String) :=
  [(0x00008000, "Attr_Changed"), (0x80000000, "File_Closed"),
   (0x00020000, "Compression_Changed"), (0x00000002, "Data_Added"),
   (0x00000001, "Data_Overwritten"), (0x00000004, "Data_Truncated"),
   (0x00000400, "Extended_Attr_Changed"), (0x00040000, "Encryption_Changed"),
   (0x00000100, "File_Created"), (0x00000200, "File_Deleted"),
   (0x00010000, "Hard_Link_Changed"), (0x00004000, "Content_Indexed_Attr_Changed"),
   (0x00800000, "Integrity_Changed"), (0x00000020, "Named_Data_Stream_Added"),
   (0x00000010, "Named_Data_Stream_Overwritten"), (0x00000040, "Named_Stream_Truncated"),
   (0x00080000, "Object_ID_Changed"), (0x00002000, "File_Renamed_New"),
   (0x00001000, "File_Renamed_Old"), (0x00100000, "Reparse_Point_Changed"),
   (0x00000800, "Access_Right_Changed"), (0x00200000, "Named_Stream_Changed"),
   (0x00400000, "Transacted_Change"), (0x01000000, "Desired_Storage_Class_Changed")]

def USN_SOURCE_DESCRIPTION : List (Nat × String) :=
  [(0x00000002, "Aux_Data"), (0x00000001, "Data_Managment"),
   (0x00000004, "Replication_Managment"), (0x00000008, "Client_Replication_Managment")]

/-- `USNRecordV2._reason_to_hr`: renders the set reason bits. -/
def reason_to_hr (reason : Nat) : String :=
  joinSlashSep ((USN_REASON_DESCRIPTION.filter fun p => p.1 &&& reason ≠ 0).map Prod.snd)

/-- `USNRecordV2._source_to_hr`. -/
def source_to_hr (source : Nat) : String :=
  let result := (USN_SOURCE_DESCRIPTION.filter fun p => p.1 &&& source ≠ 0).map Prod.snd
  if result = [] then "Normal" else joinSlashSep result

/-- Splits a character list on the 3-character separator " / "
(the list-level engine of Python `s.split(' / ')`). -/
def splitSlashSep : List Char → List Char → List (List Char)
  | [], acc => [acc.reverse]
  | ' ' :: '/' :: ' ' :: rest, acc => acc.reverse :: splitSlashSep rest []
  | c :: rest, acc => splitSlashSep rest (c :: acc)

/-- Modelled from the spec: `hr_reason_to_int` (defined in the repository's
`DefaultClass`, whose file `defaultclass.py` is not present under src/) is,
per spec section 8, the inverse of the human-readable rendering: "the bitmap
inferred by splitting on `/` and mapping names back".  Unknown names
contribute nothing. -/
def hr_reason_to_int (s : String) : Nat :=
  (splitSlashSep s.data []).foldl
    (fun acc part =>
      acc ||| ((USN_REASON_DESCRIPTION.find? fun p => p.2 == String.mk part).elim 0 Prod.fst))
    0

/-! ### UTF-16 decoding (Python `bytes.decode('utf-16')`)

Python's utf-16 codec consumes a leading BOM if present and otherwise
uses the machine's native order, little-endian on every platform this
library targets.  Unpaired or truncated surrogates raise
`UnicodeDecodeError`; that is the `none` case. -/

/-- Pair up bytes into little-endian 16-bit units; `none` on a trailing odd byte. -/
def utf16_units_le : List Nat → Option (List Nat)
  | [] => some []
  | [_] => none
  | lo :: hi :: rest => (utf16_units_le rest).map ((lo + 256 * hi) :: ·)

/-- Pair up bytes into big-endian 16-bit units; `none` on a trailing odd byte. -/
def utf16_units_be : List Nat → Option (List Nat)
  | [] => some []
  | [_] => none
  | hi :: lo :: rest => (utf16_units_be rest).map ((lo + 256 * hi) :: ·)

/-- Combine 16-bit units into code points, rejecting lone surrogates. -/
def utf16_combine : List Nat → Option (List Nat)
  | [] => some []
  | u :: rest =>
    if u < 0xD800 ∨ 0xDFFF < u then (utf16_combine rest).map (u :: ·)
    else if u ≤ 0xDBFF then
      match rest with
      | [] => none
      | u2 :: rest2 =>
        if 0xDC00 ≤ u2 ∧ u2 ≤ 0xDFFF then
          (utf16_combine rest2).map ((0x10000 + (u - 0xD800) * 0x400 + (u2 - 0xDC00)) :: ·)
        else none
    else none

/-- Python `bytes.decode('utf-16')`, yielding the code-point sequence. -/
def utf16_decode (bs : List Nat) : Option (List Nat) :=
  match bs with
  | 0xff :: 0xfe :: rest => (utf16_units_le rest).bind utf16_combine
  | 0xfe :: 0xff :: rest => (utf16_units_be rest).bind utf16_combine
  | _ => (utf16_units_le bs).bind utf16_combine

/-- The parsed USN V2 record object.  `timestamp` is in epoch seconds;
`name` is the decoded filename as a code-point sequence. -/
structure USNRecordV2 where
  timestamp : ℚ
  file_addr : Nat
  file_seq : Nat
  par_addr : Nat
  par_seq : Nat
  usn : Int
  reason : String
  source_info : String
  sec_id : Nat
  file_attr : String
  name : List Nat
  carved : Bool
deriving Repr, DecidableEq

/-- `USNRecordV2.from_raw`.  The source unpacks `raw[8:60]` with
`<LxxHLxxHQQIIIIHH` (a 52-byte layout, so fewer than 60 bytes raise
`struct.error`), then validates field by field, raising `AttributeError`
(here: `.error`) on the first failure.  Python's `reason & ~ALL` on
nonnegative ints below 2^32 equals `reason &&& (0xffffffff ^^^ ALL)`,
the form used here (`reason` is an unpacked `I`, hence < 2^32). -/
def from_raw (raw : List Nat) : Except String USNRecordV2 :=
  if raw.length < 60 then .error "struct.error" else
  let file_addr := le32 raw 8
  let file_seq := le16 raw 14
  let par_addr := le32 raw 16
  let par_seq := le16 raw 22
  let usn := le64 raw 24
  let filetime := le64 raw 32
  let reason := le32 raw 40
  let source_info := le32 raw 44
  let sec_id := le32 raw 48
  let file_attr := le32 raw 52
  let fn_len := le16 raw 56
  let fn_offset := le16 raw 58
  if filetime < EPOCH_AS_FILETIME ∨ MAX_FILETIME < filetime then .error "Invalid Timestamp" else
  let timestamp : ℚ := ((filetime : ℚ) - (EPOCH_AS_FILETIME : ℚ)) / (HUNDREDS_OF_NANOSECONDS : ℚ)
  if usn = 0 then .error "Invalid USN" else
  let usnSigned : Int := if 0x7fffffffffffffff < usn then (usn : Int) - 0x10000000000000000 else usn
  if reason = 0 ∨ reason &&& (0xffffffff ^^^ ALL_USN_REASON) ≠ 0 then .error "Invalid Reason" else
  if file_attr = 0 ∨ file_attr &&& (0xffffffff ^^^ ALL_FILE_ATTRIBUTE) ≠ 0 then
    .error "Invalid File Attribute" else
  if 0x0000000f < source_info then .error "Invalid SourceInfo" else
  if fn_len % 2 ≠ 0 ∨ fn_len = 0 then .error "Invalid filename length" else
  if raw.length < fn_offset + fn_len then .error "Invalid filename length" else
  match utf16_decode (bslice raw fn_offset fn_len) with
  | none => .error "Invalid filename"
  | some fname =>
    if 0 ∈ fname then .error "Invalid filename" else
    .ok { timestamp := timestamp, file_addr := file_addr, file_seq := file_seq,
          par_addr := par_addr, par_seq := par_seq, usn := usnSigned,
          reason := reason_to_hr reason, source_info := source_to_hr source_info,
          sec_id := sec_id, file_attr := hr_file_attribute file_attr,
          name := fname, carved := false }

/-! ## Carvers (`usnrecordv2.py`, `prefetchfile.py`, `lnkfile.py`)

A carver is a generator yielding records and next-offset integers; its
output is modelled as the list of yielded elements.  The carve driver
(`Partition.carve` in `partition.py`) invokes a carver only while
`len(current_data) - current_offset > 0xffffff`.  External parsing
libraries (pyscca for prefetch, LnkParse3 for LNK) are abstracted as an
oracle `parse : List Nat → Option α` (`none` models the parse
exception). -/

inductive CarveYield (α : Type) where
  | next (n : Nat)
  | item (a : α)
deriving Repr

/-- The window threshold of `Partition.carve`'s inner scan loop. -/
def CARVE_WINDOW_THRESHOLD : Nat := 0xffffff

def USN_CARVER_OFFSET_STEP : Nat := 8

/-- `usn_carver`: scans for the USN V2 version signature at 8-byte
alignment + 2 and re-applies the record validators.  Python's
`index(..., current_offset, -512)` bounds the search by
`len(current_data) - 512`. -/
def usn_carver (current_data : List Nat) (current_offset : Nat) :
    List (CarveYield USNRecordV2) :=
  match bytes_index current_data [0, 0, 2, 0, 0, 0] current_offset
      (current_data.length - 512) with
  | none => [.next (current_data.length - 512 + USN_CARVER_OFFSET_STEP)]
  | some candidate_offset =>
    if candidate_offset % 8 ≠ 2 then
      [.next (candidate_offset - candidate_offset % 8 + USN_CARVER_OFFSET_STEP)]
    else
      let co := candidate_offset - 2
      let pre : List (CarveYield USNRecordV2) :=
        if bslice current_data co 2 = [0, 0] ∨
            bslice current_data (co + 2) 6 ≠ [0, 0, 2, 0, 0, 0] then
          [.next (co + USN_CARVER_OFFSET_STEP)]
        else []
      let rec_len := le32 current_data co
      if rec_len < 60 then pre ++ [.next (co + USN_CARVER_OFFSET_STEP)]
      else
        match from_raw (bslice current_data co rec_len) with
        | .ok r => pre ++ [.item { r with carved := true }, .next (co + USN_CARVER_OFFSET_STEP)]
        | .error _ => pre ++ [.next (co + USN_CARVER_OFFSET_STEP)]

def PREFETCH_CARVER_OFFSET_STEP : Nat := 512

/-- The `while zero_check_start < uncompressed_size` loop of
`prefetch_carver`: truncate the candidate blob at each run of 8 zero
bytes and try to parse. -/
def prefetch_zero_check {α : Type} (parse : List Nat → Option α) (current_data : List Nat)
    (co usize zcs : Nat) : Option α :=
  if _hz : zcs < usize then
    match h : bytes_index (bslice current_data co usize) (List.replicate 8 0) zcs
        (bslice current_data co usize).length with
    | none => none
    | some index_end =>
      match parse (bslice current_data co (index_end + 2)) with
      | some pf => some pf
      | none =>
        have hle := (bytes_index_bounds h).1
        prefetch_zero_check parse current_data co usize (index_end + 8)
  else none
termination_by usize - zcs
decreasing_by omega

/-- The `for i in range(uncompressed_size // 512)` loop of
`prefetch_carver`: try each 512-byte sector end in turn. -/
def prefetch_sector_check {α : Type} (parse : List Nat → Option α) (current_data : List Nat)
    (co n : Nat) : Option α :=
  (List.range n).findSome? fun i =>
    parse (bslice current_data co (i * PREFETCH_CARVER_OFFSET_STEP))

/-- `prefetch_carver`: scans for `MAM` at 512-byte alignment with a zero
byte at offset 7, then validates the candidate blob by the two
truncation strategies. -/
def prefetch_carver {α : Type} (parse : List Nat → Option α) (current_data : List Nat)
    (current_offset : Nat) : List (CarveYield α) :=
  match bytes_index current_data [0x4D, 0x41, 0x4D] current_offset
      (current_data.length - 5 * 1024 * 1024) with
  | none => [.next (current_data.length - 5 * 1024 * 1024 + PREFETCH_CARVER_OFFSET_STEP)]
  | some candidate_offset =>
    if candidate_offset % PREFETCH_CARVER_OFFSET_STEP ≠ 0 then
      [.next (candidate_offset - candidate_offset % PREFETCH_CARVER_OFFSET_STEP +
        PREFETCH_CARVER_OFFSET_STEP)]
    else
      let co := candidate_offset
      if bslice current_data co 3 ≠ [0x4D, 0x41, 0x4D] ∨ bget current_data (co + 7) ≠ 0 then
        [.next (co + PREFETCH_CARVER_OFFSET_STEP)]
      else
        let uncompressed_size := le32 current_data (co + 4)
        match prefetch_zero_check parse current_data co uncompressed_size 0 with
        | some pf => [.item pf, .next (co + PREFETCH_CARVER_OFFSET_STEP)]
        | none =>
          match prefetch_sector_check parse current_data co
              (uncompressed_size / PREFETCH_CARVER_OFFSET_STEP) with
          | some pf => [.item pf, .next (co + PREFETCH_CARVER_OFFSET_STEP)]
          | none => [.next (co + PREFETCH_CARVER_OFFSET_STEP)]

def LNK_CARVER_OFFSET_STEP : Nat := 512

def LNK_MAGIC : List Nat :=
  [0x4c, 0, 0, 0, 0x01, 0x14, 0x02, 0, 0, 0, 0, 0, 0xc0, 0, 0, 0, 0, 0, 0, 0x46]

/-- `lnk_carver`: scans for the 20-byte LNK header magic at 512-byte
alignment, validates the 10 zero bytes at offset 66, and attempts a
parse of the first 4 KiB. -/
def lnk_carver {α : Type} (parse : List Nat → Option α) (current_data : List Nat)
    (current_offset : Nat) : List (CarveYield α) :=
  match bytes_index current_data LNK_MAGIC current_offset
      (current_data.length - 5 * 1024 * 1024) with
  | none => [.next (current_data.length - 5 * 1024 * 1024 + LNK_CARVER_OFFSET_STEP)]
  | some candidate_offset =>
    if candidate_offset % LNK_CARVER_OFFSET_STEP ≠ 0 then
      [.next (candidate_offset - candidate_offset % LNK_CARVER_OFFSET_STEP +
        LNK_CARVER_OFFSET_STEP)]
    else
      let co := candidate_offset
      if bslice current_data co 20 ≠ LNK_MAGIC ∨
          bslice current_data (co + 66) 10 ≠ List.replicate 10 0 then
        [.next (co + LNK_CARVER_OFFSET_STEP)]
      else
        match parse (bslice current_data co 4096) with
        | some l => [.item l, .next (co + LNK_CARVER_OFFSET_STEP)]
        | none => [.next (co + LNK_CARVER_OFFSET_STEP)]

/-! ## Record store (`dfxlibs/general/baseclasses/databaseobject.py`)

A table is the list of its rows; a `DatabaseObject` subclass is
abstracted by its row type `ρ` and the primary-key projection
`pk : ρ → κ` derived from `db_primary_key()`.  sqlite raises
`IntegrityError` on a duplicate primary key and leaves the table
untouched; `db_insert` catches exactly that. -/

structure DBTable (ρ : Type) where
  rows : List ρ
deriving Repr, DecidableEq

inductive SqliteError where
  | integrityError
deriving Repr, DecidableEq

/-- sqlite semantics of the generated `INSERT INTO ... VALUES (...)`. -/
def sqlite_execute_insert {ρ κ : Type} [DecidableEq κ] (pk : ρ → κ)
    (t : DBTable ρ) (row : ρ) : Except SqliteError (DBTable ρ) :=
  if (t.rows.map pk).contains (pk row) then .error .integrityError
  else .ok ⟨t.rows ++ [row]⟩

/-- `DatabaseObject.db_insert`: execute the insert, catch
`sqlite3.IntegrityError` and report `False` instead. -/
def db_insert {ρ κ : Type} [DecidableEq κ] (pk : ρ → κ)
    (t : DBTable ρ) (row : ρ) : Bool × DBTable ρ :=
  match sqlite_execute_insert pk t row with
  | .ok t2 => (true, t2)
  | .error .integrityError => (false, t)

/-! ## Timeline events and the prepare-USN state machine
(`dfxlibs/general/baseclasses/timeline.py`,
`dfxlibs/cli/actions/prepare/usnjournal.py` lines 167-197) -/

/-- A `Timeline` row; field order as in the source constructor. -/
structure Timeline where
  timestamp : ℚ
  event_source : String
  event_type : String
  message : String
  param1 : String
  param2 : String
  param3 : String
  param4 : String
deriving Repr, DecidableEq

/-- The view of a parsed USN record that the prepare loop's state
tracking consumes.  `reason` is the human-readable rendered string (as
stored on the Python object by `from_raw`); `full_name` is the
`DefaultClass`-provided property used in messages, carried here as a
field. -/
structure USNRecView where
  timestamp : ℚ
  file_addr : Nat
  file_seq : Nat
  reason : String
  name : String
  parent_folder : String
  full_name : String
deriving Repr, DecidableEq

/-- Python `f'{file_addr}-{file_seq}'`. -/
def file_meta_key (r : USNRecView) : String :=
  toString r.file_addr ++ "-" ++ toString r.file_seq

/-- Python `dict` membership/get on an association list. -/
def dict_get {α : Type} : List (String × α) → String → Option α
  | [], _ => none
  | (k2, v) :: rest, k => if k = k2 then some v else dict_get rest k

/-- Python `d[k] = v`. -/
def dict_set {α : Type} : List (String × α) → String → α → List (String × α)
  | [], k, v => [(k, v)]
  | (k2, v2) :: rest, k, v =>
    if k = k2 then (k, v) :: rest else (k2, v2) :: dict_set rest k v

/-- Python `del d[k]` (total; only ever applied to present keys). -/
def dict_del {α : Type} : List (String × α) → String → List (String × α)
  | [], _ => []
  | (k2, v2) :: rest, k => if k = k2 then rest else (k2, v2) :: dict_del rest k

/-- The per-file state of the prepare-USN loop: `states_old` maps
`file_addr-file_seq` to the reason bitmap of the last record seen, and
`renames_old` stashes `(name, parent_folder, full_name)` from
`RENAME_OLD_NAME` records. -/
structure USNTimelineState where
  states_old : List (String × Nat)
  renames_old : List (String × (String × String × String))
deriving Repr, DecidableEq

def usn_init : USNTimelineState := ⟨[], []⟩

/-- One iteration of the state tracking in `prepare_usnjournal`
(usnjournal.py lines 167-197), returning the new state and the timeline
events inserted for this record.  Python's `~old & new` on values below
2^32 equals `new &&& (0xffffffff ^^^ old)`. -/
def prepare_usn_step (st : USNTimelineState) (r : USNRecView) :
    USNTimelineState × List Timeline :=
  let file_meta := file_meta_key r
  let reasonInt := hr_reason_to_int r.reason
  let new_states :=
    match dict_get st.states_old file_meta with
    | none => reasonInt
    | some old => reasonInt &&& (0xffffffff ^^^ old)
  let states1 := dict_set st.states_old file_meta reasonInt
  let create_evs : List Timeline :=
    if new_states &&& USN_REASON_FILE_CREATE ≠ 0 then
      [⟨r.timestamp, "usnjournal", "FILE_CREATE", r.full_name ++ " created",
        r.name, r.parent_folder, "", ""⟩]
    else []
  let delete_evs : List Timeline :=
    if new_states &&& USN_REASON_FILE_DELETE ≠ 0 then
      [⟨r.timestamp, "usnjournal", "FILE_DELETE", r.full_name ++ " deleted",
        r.name, r.parent_folder, "", ""⟩]
    else []
  let renames1 :=
    if new_states &&& USN_REASON_RENAME_OLD_NAME ≠ 0 then
      dict_set st.renames_old file_meta (r.name, r.parent_folder, r.full_name)
    else st.renames_old
  let rename_out : List Timeline × List (String × (String × String × String)) :=
    if new_states &&& USN_REASON_RENAME_NEW_NAME ≠ 0 then
      match dict_get renames1 file_meta with
      | some old =>
        ([⟨r.timestamp, "usnjournal", "FILE_RENAME",
           old.2.2 ++ " renamed to " ++ r.full_name,
           r.name, r.parent_folder, old.1, old.2.1⟩], dict_del renames1 file_meta)
      | none => ([], renames1)
    else ([], renames1)
  let states2 :=
    if new_states &&& USN_REASON_CLOSE ≠ 0 then dict_del states1 file_meta else states1
  (⟨states2, rename_out.2⟩, create_evs ++ delete_evs ++ rename_out.1)

/-- Run the state tracking over a record stream, collecting the emitted
timeline events in order. -/
def prepare_usn_run (st : USNTimelineState) : List USNRecView → USNTimelineState × List Timeline
  | [] => (st, [])
  | r :: rest =>
    let out := prepare_usn_step st r
    let out2 := prepare_usn_run out.1 rest
    (out2.1, out.2 ++ out2.2)

/-- Whether processing record `r` in state `st` emits a `FILE_CREATE`
timeline event. -/
def step_fires_create (st : USNTimelineState) (r : USNRecView) : Bool :=
  (prepare_usn_step st r).2.any fun e => e.event_type == "FILE_CREATE"

/-- The newly-set-bits value the prepare loop computes for record `r` in
state `st` (`new_states` in the source). -/
def step_new_states (st : USNTimelineState) (r : USNRecView) : Nat :=
  match dict_get st.states_old (file_meta_key r) with
  | none => hr_reason_to_int r.reason
  | some old => hr_reason_to_int r.reason &&& (0xffffffff ^^^ old)

/-- The per-key invariant: the tracked state holds a bitmap with the
FILE_CREATE bit set. -/
def has_create_state (st : USNTimelineState) (k : String) : Prop :=
  ∃ v, dict_get st.states_old k = some v ∧ v.testBit 8 = true

/-! ## File facade (`dfxlibs/general/baseclasses/file.py`) -/

/-- `File.full_name` (file.py lines 242-247). -/
def File_full_name (parent_folder name : String) : String :=
  if parent_folder = "/" then "/" ++ name
  else parent_folder ++ "/" ++ name

/-- `File.seek` (file.py lines 159-179): bounds-check, then position by
whence; `IOError`/`RuntimeError` become `.error`. -/
def File_seek (size pos offset : Int) (whence : Nat) : Except String Int :=
  if offset < 0 ∨ size < offset then .error "offset out of bounds"
  else if whence = 0 then .ok (min offset size)
  else if whence = 1 then .ok (min (pos + offset) size)
  else if whence = 2 then .ok (max 0 (size - offset))
  else .error "unknown whence value"

/-- The position change of `File.read` (file.py lines 190-240).  On the
happy path the position advances by `to_read`; on a partial-read
`OSError` the source degrades to sector-by-sector reads and advances by
the bytes actually delivered, a value in `[0, to_read]` — abstracted
here by `avail`, the number of bytes the backing store can deliver. -/
def File_read_pos (size pos rdsize : Int) (avail : Nat) : Int :=
  let to_read := if rdsize = -1 ∨ size < rdsize + pos then size - pos else rdsize
  if to_read = 0 then pos else pos + min to_read (avail : Int)

/-- A seek or read call on a `File`. -/
inductive FileOp where
  | seekOp (offset : Int) (whence : Nat)
  | readOp (rdsize : Int) (avail : Nat)

/-- Run a call sequence against a `File`; a failed seek raises and
leaves the position unchanged. -/
def File_run (size : Int) (pos : Int) : List FileOp → Int
  | [] => pos
  | .seekOp off wh :: rest =>
    match File_seek size pos off wh with
    | .ok p2 => File_run size p2 rest
    | .error _ => File_run size pos rest
  | .readOp sz avail :: rest => File_run size (File_read_pos size pos sz avail) rest

/-! ## Partition layer (`dfxlibs/general/baseclasses/partition.py`) -/

/-- The image handle: raw bytes plus the detected volume-system type
string (`Image.vstype`); `handle.read(offset, size)` is a slice. -/
structure Image where
  data : List Nat
  vstype : String

def handle_read (source : List Nat) (offset size : Int) : List Nat :=
  (source.drop offset.toNat).take size.toNat

/-- `PartitionWrapper`: a bounded byte stream over the image. -/
structure PartitionWrapper where
  sector_offset : Nat
  sector_count : Nat
  sector_size : Nat
  read_byte_offset : Int
deriving Repr, DecidableEq

def PartitionWrapper.bytes_size (w : PartitionWrapper) : Int :=
  (w.sector_count * w.sector_size : Nat)

/-- `PartitionWrapper.seek` (partition.py lines 188-198). -/
def PW_seek (w : PartitionWrapper) (offset : Int) (whence : Nat) :
    Except String PartitionWrapper :=
  if offset < 0 ∨ w.bytes_size < offset then .error "offset out of bounds"
  else if whence = 0 then .ok { w with read_byte_offset := min offset w.bytes_size }
  else if whence = 1 then
    .ok { w with read_byte_offset := min (w.read_byte_offset + offset) w.bytes_size }
  else if whence = 2 then
    .ok { w with read_byte_offset := max 0 (w.bytes_size - offset) }
  else .error "unknown whence value"

/-- `PartitionWrapper.read` (partition.py lines 173-186); `size = none`
is Python's `size=None`.  `_last_byte_offset` is
`(sector_offset + sector_count) * sector_size`. -/
def PW_read (source : List Nat) (w : PartitionWrapper) (size : Option Int) :
    List Nat × PartitionWrapper :=
  let read_size :=
    match size with
    | none => w.bytes_size - w.read_byte_offset
    | some s => min s (w.bytes_size - w.read_byte_offset)
  if read_size = 0 then ([], w)
  else
    let offset := min (((w.sector_offset * w.sector_size : Nat) : Int) + w.read_byte_offset)
      (((w.sector_offset + w.sector_count) * w.sector_size : Nat) : Int)
    (handle_read source offset read_size,
     { w with read_byte_offset := w.read_byte_offset + read_size })

/-- A seek or read call on a `PartitionWrapper`. -/
inductive PWOp where
  | seekOp (offset : Int) (whence : Nat)
  | readOp (size : Option Int)

/-- Run a call sequence against a `PartitionWrapper` (the data source
does not affect positions, so only positions are tracked). -/
def PW_run (w : PartitionWrapper) : List PWOp → PartitionWrapper
  | [] => w
  | .seekOp off wh :: rest =>
    match PW_seek w off wh with
    | .ok w2 => PW_run w2 rest
    | .error _ => PW_run w rest
  | .readOp sz :: rest => PW_run (PW_read [] w sz).2 rest

def TSK_FS_TYPE_NTFS : Nat := 1

/-- `Partition`: the sector geometry and refined `sector_size`/`type_id`
(which may differ from the wrapped stream's construction-time values
after a file-system mount), plus the `_decrypted` byte stream. -/
structure Partition where
  sector_offset : Nat
  sector_count : Nat
  sector_size : Nat
  type_id : Nat
  decrypted : PartitionWrapper
deriving Repr, DecidableEq

def Partition.bytes_size (p : Partition) : Int :=
  (p.sector_count * p.sector_size : Nat)

def Partition.tell (p : Partition) : Int := p.decrypted.read_byte_offset

/-- `Partition.read` (partition.py lines 373-382): the end-of-partition
special case hands back the first 512 bytes of the partition; otherwise
the read is delegated to the `_decrypted` stream. -/
def Partition_read (src : Image) (p : Partition) (size : Option Int) :
    List Nat × Partition :=
  if p.tell = p.bytes_size ∧ src.vstype = "single partition" ∧ size = some 512 ∧
      p.type_id = TSK_FS_TYPE_NTFS then
    (handle_read src.data ((p.sector_offset * p.sector_size : Nat) : Int) 512, p)
  else
    let out := PW_read src.data p.decrypted size
    (out.1, { p with decrypted := out.2 })

/-! ## Boot-key derivation (`dfxlibs/windows/registry/analysis/system.py`
lines 61-80) -/

def bootkey_perm_matrix : List Nat :=
  [0x8, 0x5, 0x4, 0x2, 0xb, 0x9, 0xd, 0x3, 0x0, 0x6, 0x1, 0xc, 0xe, 0xa, 0xf, 0x7]

/-- The permutation step of `SYSTEM._get_boot_key`:
`bytes([scrambled[matrix[i]] for i in range(len(scrambled))])`. -/
def boot_key_permute (bootkey_scrambled : List Nat) : List Nat :=
  (List.range bootkey_scrambled.length).map fun i =>
    bget bootkey_scrambled (bget bootkey_perm_matrix i)

/-- The inverse of `bootkey_perm_matrix` (entry `i` holds the position
`j` with `matrix[j] = i`). -/
def bootkey_perm_inverse_matrix : List Nat :=
  [8, 10, 3, 7, 2, 1, 9, 15, 0, 5, 13, 4, 11, 6, 12, 14]

/-- Applying the inverse permutation. -/
def boot_key_unpermute (permuted : List Nat) : List Nat :=
  (List.range permuted.length).map fun i =>
    bget permuted (bget bootkey_perm_inverse_matrix i)

/-! ## Claim-side predicates and concrete example inputs -/

/-- Validity of a `File` call argument per the claim: non-negative seek
offsets and read sizes. -/
def FileOpValid : FileOp → Prop
  | .seekOp offset _ => 0 ≤ offset
  | .readOp rdsize _ => 0 ≤ rdsize

/-- Validity of a `PartitionWrapper` call argument per the claim. -/
def PWOpValid : PWOp → Prop
  | .seekOp offset _ => 0 ≤ offset
  | .readOp none => True
  | .readOp (some s) => 0 ≤ s

/-- The rejection conditions exactly as enumerated by the specification
for `USNRecordV2.from_raw` (fields decoded from the fixed header
layout): filetime out of range, zero usn, zero/unknown reason bits,
zero/unknown attribute bits, source_info above 0x0f, zero or odd name
length, name overrunning the record, or a NUL in the decoded name. -/
def usn_claim_reject_conditions (raw : List Nat) : Bool :=
  decide (le64 raw 32 < EPOCH_AS_FILETIME) || decide (MAX_FILETIME < le64 raw 32) ||
  decide (le64 raw 24 = 0) ||
  decide (le32 raw 40 = 0) || decide (le32 raw 40 &&& (0xffffffff ^^^ ALL_USN_REASON) ≠ 0) ||
  decide (le32 raw 52 = 0) || decide (le32 raw 52 &&& (0xffffffff ^^^ ALL_FILE_ATTRIBUTE) ≠ 0) ||
  decide (0x0000000f < le32 raw 44) ||
  decide (le16 raw 56 = 0) || decide (le16 raw 56 % 2 = 1) ||
  decide (raw.length < le16 raw 58 + le16 raw 56) ||
  (match utf16_decode (bslice raw (le16 raw 58) (le16 raw 56)) with
   | some cps => decide (0 ∈ cps)
   | none => false)

/-- A well-formed 64-byte USN V2 record: 60-byte header plus the
UTF-16LE name "ab" (rec_len 64, version 2.0, usn 1, filetime at the
epoch, reason FILE_CREATE, attributes ARCHIVE). -/
def usn_raw64_example : List Nat :=
  [64, 0, 0, 0, 2, 0, 0, 0,
   5, 0, 0, 0, 0, 0, 1, 0,
   7, 0, 0, 0, 0, 0, 1, 0,
   1, 0, 0, 0, 0, 0, 0, 0,
   0x00, 0x80, 0x3E, 0xD5, 0xDE, 0xB1, 0x9D, 0x01,
   0x00, 0x01, 0, 0,
   0, 0, 0, 0,
   0, 0, 0, 0,
   0x20, 0, 0, 0,
   4, 0, 60, 0,
   0x61, 0, 0x62, 0]

/-- The same record truncated to 59 bytes. -/
def usn_raw59_example : List Nat := usn_raw64_example.take 59

/-- A 62-byte record identical in the header except that its 2-byte name
is the unpaired UTF-16 high surrogate `00 D8`: every field check of the
claim passes, yet decoding the name fails. -/
def usn_raw62_surrogate : List Nat :=
  [62, 0, 0, 0, 2, 0, 0, 0,
   5, 0, 0, 0, 0, 0, 1, 0,
   7, 0, 0, 0, 0, 0, 1, 0,
   1, 0, 0, 0, 0, 0, 0, 0,
   0x00, 0x80, 0x3E, 0xD5, 0xDE, 0xB1, 0x9D, 0x01,
   0x00, 0x01, 0, 0,
   0, 0, 0, 0,
   0, 0, 0, 0,
   0x20, 0, 0, 0,
   2, 0, 60, 0,
   0x00, 0xd8]

/-- A single-partition NTFS image whose partition has 4096-byte sectors:
the end-of-partition read-back special case of `Partition.read` demands
`size == 512` literally, so a `sector_size`-byte read returns nothing. -/
def cex_image_4k : Image := ⟨List.replicate 16384 7, "single partition"⟩

/-- The matching partition: 4 sectors of 4096 bytes, NTFS, positioned at
end of partition. -/
def cex_partition_4k : Partition := ⟨0, 4, 4096, 1, ⟨0, 4, 4096, 16384⟩⟩

/-- A 17-megabyte buffer that opens with the 6-byte USN version
signature: concrete input for exercising the carver progress theorem. -/
def carver_witness_data : List Nat := 0 :: 0 :: 2 :: 0 :: 0 :: 0 :: List.replicate 17000000 0

/-! # Theorems -/

/-! ## Association-list (Python dict) lemmas -/

theorem dict_get_set_self {α : Type} (d : List (String × α)) (k : String) (v : α) :
    dict_get (dict_set d k v) k = some v := by
  induction d with
  | nil => simp [dict_set, dict_get]
  | cons p rest ih =>
    by_cases h : k = p.1
    · simp [dict_set, dict_get, h]
    · simp [dict_set, dict_get, h, ih]

theorem dict_get_set_other {α : Type} (d : List (String × α)) (k k2 : String) (v : α)
    (h : k ≠ k2) : dict_get (dict_set d k2 v) k = dict_get d k := by
  induction d with
  | nil => simp [dict_set, dict_get, h]
  | cons p rest ih =>
    by_cases h2 : k2 = p.1
    · subst h2
      simp [dict_set, dict_get, h]
    · by_cases h3 : k = p.1
      · simp [dict_set, dict_get, h2, h3]
      · simp [dict_set, dict_get, h2, h3, ih]

theorem dict_get_del_other {α : Type} (d : List (String × α)) (k k2 : String)
    (h : k ≠ k2) : dict_get (dict_del d k2) k = dict_get d k := by
  induction d with
  | nil => simp [dict_del, dict_get]
  | cons p rest ih =>
    by_cases h2 : k2 = p.1
    · subst h2
      simp [dict_del, dict_get, h]
    · by_cases h3 : k = p.1
      · simp [dict_del, dict_get, h2, h3]
      · simp [dict_del, dict_get, h2, h3, ih]

/-! ## C6: filetime boundary behaviour -/

/-- C6: `filetime_to_dt` maps `EPOCH_AS_FILETIME` (116444736000000000)
exactly to 1970-01-01T00:00:00Z and `MAX_FILETIME` (151478208000000000)
exactly to 2081-01-06T00:00:00Z (as epoch seconds of those civil dates),
and raises `ValueError` for every filetime strictly below the epoch. -/
theorem filetime_to_dt_boundary_spec :
    filetime_to_dt EPOCH_AS_FILETIME = .ok (civil_epoch_seconds 1970 1 1) ∧
    filetime_to_dt MAX_FILETIME = .ok (civil_epoch_seconds 2081 1 6) ∧
    ∀ ft : Nat, ft < EPOCH_AS_FILETIME → (filetime_to_dt ft).isOk = false := by
  refine ⟨?_, ?_, ?_⟩
  · have h1 : days_from_civil 1970 1 1 = 0 := by decide
    simp [filetime_to_dt, civil_epoch_seconds, h1, EPOCH_AS_FILETIME, HUNDREDS_OF_NANOSECONDS]
  · have h1 : days_from_civil 2081 1 6 = 40548 := by decide
    simp only [filetime_to_dt, civil_epoch_seconds, h1, EPOCH_AS_FILETIME, MAX_FILETIME,
      HUNDREDS_OF_NANOSECONDS]
    norm_num
  · intro ft h
    simp [filetime_to_dt, h, Except.isOk, Except.toBool]

/-- Witness for C6 at the concrete input 0. -/
theorem filetime_to_dt_boundary_spec_witness :
    (filetime_to_dt 0).isOk = false :=
  filetime_to_dt_boundary_spec.2.2 0 (by norm_num [EPOCH_AS_FILETIME])

/-! ## C7: boot-key permutation -/

theorem boot_key_roundtrip (s : List Nat) (h : s.length = 16) :
    boot_key_unpermute (boot_key_permute s) = s ∧
    boot_key_permute (boot_key_unpermute s) = s := by
  rcases s with _ | ⟨a0, s⟩; · simp at h
  rcases s with _ | ⟨a1, s⟩; · simp at h
  rcases s with _ | ⟨a2, s⟩; · simp at h
  rcases s with _ | ⟨a3, s⟩; · simp at h
  rcases s with _ | ⟨a4, s⟩; · simp at h
  rcases s with _ | ⟨a5, s⟩; · simp at h
  rcases s with _ | ⟨a6, s⟩; · simp at h
  rcases s with _ | ⟨a7, s⟩; · simp at h
  rcases s with _ | ⟨b0, s⟩; · simp at h
  rcases s with _ | ⟨b1, s⟩; · simp at h
  rcases s with _ | ⟨b2, s⟩; · simp at h
  rcases s with _ | ⟨b3, s⟩; · simp at h
  rcases s with _ | ⟨b4, s⟩; · simp at h
  rcases s with _ | ⟨b5, s⟩; · simp at h
  rcases s with _ | ⟨b6, s⟩; · simp at h
  rcases s with _ | ⟨b7, s⟩; · simp at h
  rcases s with _ | ⟨c0, s⟩
  · exact ⟨rfl, rfl⟩
  · simp at h

theorem boot_key_permute_length (s : List Nat) : (boot_key_permute s).length = s.length := by
  simp [boot_key_permute]

theorem boot_key_unpermute_length (s : List Nat) : (boot_key_unpermute s).length = s.length := by
  simp [boot_key_unpermute]

/-- C7: the boot-key scramble permutes the 16 class-name bytes by the
fixed index table; it is a bijection on 16-byte strings, applying it
twice is not the identity, and the inverse permutation restores the
scrambled key. -/
theorem boot_key_permutation_spec :
    (∀ s : List Nat, s.length = 16 →
      (boot_key_permute s).length = 16 ∧
      boot_key_unpermute (boot_key_permute s) = s ∧
      boot_key_permute (boot_key_unpermute s) = s) ∧
    Set.BijOn boot_key_permute { s : List Nat | s.length = 16 }
      { s : List Nat | s.length = 16 } ∧
    boot_key_permute (boot_key_permute
      [0, 1, 2, 3, 4, 5, 6, 7, 8, 9, 10, 11, 12, 13, 14, 15]) ≠
      [0, 1, 2, 3, 4, 5, 6, 7, 8, 9, 10, 11, 12, 13, 14, 15] := by
  refine ⟨?_, ⟨?_, ?_, ?_⟩, by decide⟩
  · intro s h
    exact ⟨by rw [boot_key_permute_length, h], (boot_key_roundtrip s h).1,
      (boot_key_roundtrip s h).2⟩
  · intro s hs
    simp only [Set.mem_setOf_eq] at hs ⊢
    rw [boot_key_permute_length, hs]
  · intro s hs t ht he
    simp only [Set.mem_setOf_eq] at hs ht
    have h1 := (boot_key_roundtrip s hs).1
    have h2 := (boot_key_roundtrip t ht).1
    rw [← h1, ← h2, he]
  · intro t ht
    simp only [Set.mem_setOf_eq] at ht
    refine ⟨boot_key_unpermute t, ?_, (boot_key_roundtrip t ht).2⟩
    simp only [Set.mem_setOf_eq]
    rw [boot_key_unpermute_length, ht]

/-- Witness for C7 at a concrete 16-byte key. -/
theorem boot_key_permutation_spec_witness :
    boot_key_unpermute (boot_key_permute
      [1, 2, 3, 4, 5, 6, 7, 8, 9, 10, 11, 12, 13, 14, 15, 16]) =
      [1, 2, 3, 4, 5, 6, 7, 8, 9, 10, 11, 12, 13, 14, 15, 16] :=
  (boot_key_permutation_spec.1
    [1, 2, 3, 4, 5, 6, 7, 8, 9, 10, 11, 12, 13, 14, 15, 16] (by decide)).2.1

/-! ## C3: duplicate-PK insert is a silent no-op -/

/-- C3: for any `DatabaseObject` table state and any object whose
primary-key tuple already occurs in the table, `db_insert` returns
`False` without raising and leaves the table byte-for-byte unchanged
(same row count, same rows). -/
theorem db_insert_duplicate_pk_spec {ρ κ : Type} [DecidableEq κ] (pk : ρ → κ)
    (t : DBTable ρ) (row : ρ) (h : pk row ∈ t.rows.map pk) :
    (db_insert pk t row).1 = false ∧
    (db_insert pk t row).2.rows.length = t.rows.length ∧
    ∀ i : Nat, (db_insert pk t row).2.rows.get? i = t.rows.get? i := by
  have hex : ∃ a ∈ t.rows, pk a = pk row := by
    simpa [List.mem_map, eq_comm] using h
  simp [db_insert, sqlite_execute_insert, hex]

/-- Witness for C3: inserting a second row with primary key 1 into a
table already holding primary key 1. -/
theorem db_insert_duplicate_pk_spec_witness :
    (db_insert (fun r : Nat × Nat => r.1) ⟨[(1, 2)]⟩ (1, 3)).1 = false ∧
    (db_insert (fun r : Nat × Nat => r.1) ⟨[(1, 2)]⟩ (1, 3)).2.rows.length = 1 ∧
    (db_insert (fun r : Nat × Nat => r.1) ⟨[(1, 2)]⟩ (1, 3)).2.rows.get? 0 = some (1, 2) := by
  have h := db_insert_duplicate_pk_spec (fun r : Nat × Nat => r.1) ⟨[(1, 2)]⟩ (1, 3) (by decide)
  exact ⟨h.1, h.2.1, by rw [h.2.2 0]; rfl⟩

/-! ## C9: full_name composition -/

theorem append_slash_char_inj (a1 : List Char) :
    ∀ (a2 b1 b2 : List Char), '/' ∉ b1 → '/' ∉ b2 →
      a1 ++ '/' :: b1 = a2 ++ '/' :: b2 → a1 = a2 ∧ b1 = b2 := by
  induction a1 with
  | nil =>
    intro a2 b1 b2 h1 h2 he
    cases a2 with
    | nil => simpa using he
    | cons c a2 =>
      simp only [List.nil_append, List.cons_append, List.cons.injEq] at he
      exact absurd (he.2 ▸ List.mem_append_right a2 (List.mem_cons_self _ _)) h1
  | cons c a1 ih =>
    intro a2 b1 b2 h1 h2 he
    cases a2 with
    | nil =>
      simp only [List.nil_append, List.cons_append, List.cons.injEq] at he
      exact absurd (he.2.symm ▸ List.mem_append_right a1 (List.mem_cons_self _ _)) h2
    | cons d a2 =>
      simp only [List.cons_append, List.cons.injEq] at he
      have hr := ih a2 b1 b2 h1 h2 he.2
      exact ⟨by rw [he.1, hr.1], hr.2⟩

theorem string_slash_data (s t : String) : (s ++ "/" ++ t).data = s.data ++ '/' :: t.data := by
  simp [String.data_append]

/-- C9 (amended): `full_name` equals `parent_folder + "/" + name` except
when `parent_folder = "/"`, where it is `"/" + name` (the root itself,
with `parent_folder = ""` and `name = "/"`, yields `"//"`); `full_name`
determines `(parent_folder, name)` for files whose name contains no
slash and whose parent_folder is non-empty. -/
theorem full_name_amended_spec :
    (∀ parent_folder name : String,
      File_full_name parent_folder name =
        if parent_folder = "/" then "/" ++ name else parent_folder ++ "/" ++ name) ∧
    (∀ p1 n1 p2 n2 : String, p1 ≠ "" → p2 ≠ "" →
      '/' ∉ n1.data → '/' ∉ n2.data →
      File_full_name p1 n1 = File_full_name p2 n2 → p1 = p2 ∧ n1 = n2) := by
  refine ⟨fun _ _ => rfl, ?_⟩
  intro p1 n1 p2 n2 hp1 hp2 hn1 hn2 he
  unfold File_full_name at he
  have hslash : ("/" : String).data = ['/'] := rfl
  by_cases h1 : p1 = "/" <;> by_cases h2 : p2 = "/" <;> simp only [h1, h2, if_pos, if_neg,
    if_true, if_false] at he
  · subst h1; subst h2
    refine ⟨rfl, ?_⟩
    have := congrArg String.data he
    simp only [String.data_append, hslash, List.cons_append, List.nil_append,
      List.cons.injEq] at this
    exact String.ext this.2
  · exfalso
    have hd := congrArg String.data he
    rw [string_slash_data] at hd
    simp only [String.data_append, hslash] at hd
    have hinj := append_slash_char_inj [] p2.data n1.data n2.data hn1 hn2 (by simpa using hd)
    exact hp2 (String.ext (show p2.data = String.data "" from hinj.1.symm))
  · exfalso
    have hd := congrArg String.data he
    rw [string_slash_data] at hd
    simp only [String.data_append, hslash] at hd
    have hinj := append_slash_char_inj p1.data [] n1.data n2.data hn1 hn2 (by simpa using hd)
    exact hp1 (String.ext (show p1.data = String.data "" from hinj.1))
  · have hd := congrArg String.data he
    rw [string_slash_data, string_slash_data] at hd
    have hinj := append_slash_char_inj p1.data p2.data n1.data n2.data hn1 hn2 hd
    exact ⟨String.ext hinj.1, String.ext hinj.2⟩

/-- Witness for C9 at concrete strings. -/
theorem full_name_amended_spec_witness :
    ("/folder" : String) = "/folder" ∧ ("a" : String) = "a" :=
  full_name_amended_spec.2 "/folder" "a" "/folder" "a" (by decide) (by decide)
    (by decide) (by decide) rfl

/-- C9 counterexample: for `parent_folder = "/"` the claimed identity
`full_name = parent_folder + "/" + name` fails, and the pairs
`("/", "a")` and `("", "a")` collide on the same `full_name`, so the
claimed round-trip fails as well. -/
theorem full_name_counterexample :
    File_full_name "/" "a" ≠ "/" ++ "/" ++ "a" ∧
    File_full_name "/" "a" = File_full_name "" "a" := by decide

/-! ## C8: end-of-partition read-back -/

/-- C8 (amended): on a single-partition NTFS image, a read of exactly
512 bytes with the stream position at the partition's byte size returns
a copy of the first 512 bytes of the partition (its first sector when
`sector_size = 512`) and leaves the partition state unchanged. -/
theorem partition_read_end_spec (src : Image) (p : Partition)
    (h1 : p.tell = p.bytes_size) (h2 : src.vstype = "single partition")
    (h3 : p.type_id = TSK_FS_TYPE_NTFS) :
    Partition_read src p (some 512) =
      ((src.data.drop (p.sector_offset * p.sector_size)).take 512, p) := by
  have hcond : p.tell = p.bytes_size ∧ src.vstype = "single partition" ∧
      (some (512 : Int) : Option Int) = some 512 ∧ p.type_id = TSK_FS_TYPE_NTFS :=
    ⟨h1, h2, rfl, h3⟩
  rw [Partition_read, if_pos hcond]
  simp only [handle_read, Int.toNat_natCast]
  rfl

/-- Witness for C8 on a concrete 1-sector image. -/
theorem partition_read_end_spec_witness :
    Partition_read ⟨[1, 2, 3], "single partition"⟩ ⟨0, 1, 512, 1, ⟨0, 1, 512, 512⟩⟩
        (some 512) =
      ((([1, 2, 3] : List Nat).drop (0 * 512)).take 512, ⟨0, 1, 512, 1, ⟨0, 1, 512, 512⟩⟩) :=
  partition_read_end_spec ⟨[1, 2, 3], "single partition"⟩ ⟨0, 1, 512, 1, ⟨0, 1, 512, 512⟩⟩
    (by decide) rfl rfl

/-- C8 counterexample: with 4096-byte sectors, reading `sector_size`
bytes at end-of-partition misses the `size == 512` comparison and
returns empty bytes, not the first sector. -/
theorem partition_read_end_counterexample :
    (Partition_read cex_image_4k cex_partition_4k (some 4096)).1 = [] ∧
    (cex_image_4k.data.drop (cex_partition_4k.sector_offset * cex_partition_4k.sector_size)).take
        4096 ≠ [] := by
  constructor
  · rfl
  · apply List.ne_nil_of_length_pos
    rw [List.length_take, List.length_drop]
    norm_num [cex_image_4k, cex_partition_4k]


/-! ## C5: carver progress -/

theorem usn_carver_next_gt (current_data : List Nat) (current_offset : Nat)
    (h : current_offset + CARVE_WINDOW_THRESHOLD < current_data.length)
    (n : Nat) (hn : CarveYield.next n ∈ usn_carver current_data current_offset) :
    current_offset < n := by
  simp only [CARVE_WINDOW_THRESHOLD] at h
  rcases hidx : bytes_index current_data [0, 0, 2, 0, 0, 0] current_offset
      (current_data.length - 512) with _ | c
  · simp only [usn_carver, hidx, List.mem_singleton, CarveYield.next.injEq,
      USN_CARVER_OFFSET_STEP] at hn
    omega
  · have hb := bytes_index_bounds hidx
    simp only [List.length_cons, List.length_nil] at hb
    by_cases hmod : c % 8 ≠ 2
    · simp only [usn_carver, hidx, if_pos hmod, List.mem_singleton, CarveYield.next.injEq,
        USN_CARVER_OFFSET_STEP] at hn
      omega
    · rcases hfr : from_raw (bslice current_data (c - 2) (le32 current_data (c - 2)))
        with e | r <;>
      · simp only [usn_carver, hidx, if_neg hmod, hfr, USN_CARVER_OFFSET_STEP] at hn
        split_ifs at hn <;>
          simp only [List.mem_append, List.mem_singleton, List.mem_cons, List.not_mem_nil,
            CarveYield.next.injEq, reduceCtorEq, or_false, false_or] at hn <;>
          rcases hn with hn | hn <;> omega

theorem prefetch_carver_next_gt {α : Type} (parse : List Nat → Option α)
    (current_data : List Nat) (current_offset : Nat)
    (h : current_offset + CARVE_WINDOW_THRESHOLD < current_data.length)
    (n : Nat) (hn : CarveYield.next n ∈ prefetch_carver parse current_data current_offset) :
    current_offset < n := by
  simp only [CARVE_WINDOW_THRESHOLD] at h
  rcases hidx : bytes_index current_data [0x4D, 0x41, 0x4D] current_offset
      (current_data.length - 5 * 1024 * 1024) with _ | c
  · simp only [prefetch_carver, hidx, List.mem_singleton, CarveYield.next.injEq,
      PREFETCH_CARVER_OFFSET_STEP] at hn
    omega
  · have hb := bytes_index_bounds hidx
    simp only [List.length_cons, List.length_nil] at hb
    by_cases hmod : c % 512 ≠ 0
    · simp only [prefetch_carver, hidx, if_pos hmod, List.mem_singleton, CarveYield.next.injEq,
        PREFETCH_CARVER_OFFSET_STEP] at hn
      omega
    · by_cases hsig : bslice current_data c 3 ≠ [0x4D, 0x41, 0x4D] ∨
        bget current_data (c + 7) ≠ 0
      · simp only [prefetch_carver, hidx, if_neg hmod, if_pos hsig, List.mem_singleton,
          CarveYield.next.injEq, PREFETCH_CARVER_OFFSET_STEP] at hn
        omega
      · rcases hz : prefetch_zero_check parse current_data c (le32 current_data (c + 4)) 0
          with _ | pf
        · rcases hs : prefetch_sector_check parse current_data c
            (le32 current_data (c + 4) / 512) with _ | pf2 <;>
          · simp only [prefetch_carver, hidx, if_neg hmod, if_neg hsig, hz, hs,
              List.mem_singleton, List.mem_cons, List.not_mem_nil, CarveYield.next.injEq,
              reduceCtorEq, or_false, false_or, PREFETCH_CARVER_OFFSET_STEP] at hn
            omega
        · simp only [prefetch_carver, hidx, if_neg hmod, if_neg hsig, hz,
            List.mem_singleton, List.mem_cons, List.not_mem_nil, CarveYield.next.injEq,
            reduceCtorEq, or_false, false_or, PREFETCH_CARVER_OFFSET_STEP] at hn
          omega

theorem lnk_carver_next_gt {α : Type} (parse : List Nat → Option α)
    (current_data : List Nat) (current_offset : Nat)
    (h : current_offset + CARVE_WINDOW_THRESHOLD < current_data.length)
    (n : Nat) (hn : CarveYield.next n ∈ lnk_carver parse current_data current_offset) :
    current_offset < n := by
  simp only [CARVE_WINDOW_THRESHOLD] at h
  rcases hidx : bytes_index current_data LNK_MAGIC current_offset
      (current_data.length - 5 * 1024 * 1024) with _ | c
  · simp only [lnk_carver, hidx, List.mem_singleton, CarveYield.next.injEq,
      LNK_CARVER_OFFSET_STEP] at hn
    omega
  · have hb := bytes_index_bounds hidx
    simp only [LNK_MAGIC, List.length_cons, List.length_nil] at hb
    by_cases hmod : c % 512 ≠ 0
    · simp only [lnk_carver, hidx, if_pos hmod, List.mem_singleton, CarveYield.next.injEq,
        LNK_CARVER_OFFSET_STEP] at hn
      omega
    · by_cases hsig : bslice current_data c 20 ≠ LNK_MAGIC ∨
        bslice current_data (c + 66) 10 ≠ List.replicate 10 0
      · simp only [lnk_carver, hidx, if_neg hmod, if_pos hsig, List.mem_singleton,
          CarveYield.next.injEq, LNK_CARVER_OFFSET_STEP] at hn
        omega
      · rcases hp : parse (bslice current_data c 4096) with _ | l <;>
        · simp only [lnk_carver, hidx, if_neg hmod, if_neg hsig, hp,
            List.mem_singleton, List.mem_cons, List.not_mem_nil, CarveYield.next.injEq,
            reduceCtorEq, or_false, false_or, LNK_CARVER_OFFSET_STEP] at hn
          omega


/-- C5: whenever the carve driver invokes a carver (which it does only
while `len(buf) - off > 0xffffff`, the driver's window threshold), every
integer yielded by `usn_carver`, `prefetch_carver` and `lnk_carver` is
strictly greater than the offset the carver was invoked with, so the
driver's scan over a finite partition makes progress. -/
theorem carvers_advance_spec (current_data : List Nat) (current_offset : Nat)
    (h : current_offset + CARVE_WINDOW_THRESHOLD < current_data.length) :
    (∀ n : Nat, CarveYield.next n ∈ usn_carver current_data current_offset →
      current_offset < n) ∧
    (∀ (α : Type) (parse : List Nat → Option α) (n : Nat),
      CarveYield.next n ∈ prefetch_carver parse current_data current_offset →
      current_offset < n) ∧
    (∀ (α : Type) (parse : List Nat → Option α) (n : Nat),
      CarveYield.next n ∈ lnk_carver parse current_data current_offset →
      current_offset < n) :=
  ⟨fun n hn => usn_carver_next_gt current_data current_offset h n hn,
   fun _ parse n hn => prefetch_carver_next_gt parse current_data current_offset h n hn,
   fun _ parse n hn => lnk_carver_next_gt parse current_data current_offset h n hn⟩

theorem carver_witness_data_length : carver_witness_data.length = 17000006 := by
  rw [carver_witness_data, List.length_cons, List.length_cons, List.length_cons,
    List.length_cons, List.length_cons, List.length_cons, List.length_replicate]

theorem carver_witness_index :
    bytes_index carver_witness_data [0, 0, 2, 0, 0, 0] 0 (carver_witness_data.length - 512) =
      some 0 := by
  unfold bytes_index
  rw [carver_witness_data_length]
  rw [List.range_succ_eq_map 17000006]
  apply List.find?_cons_of_pos
  rfl

theorem carver_witness_eval : usn_carver carver_witness_data 0 = [.next 8] := by
  rw [usn_carver, carver_witness_index]
  rfl

/-- Witness for C5: a 17-megabyte buffer opening with the USN version
signature yields the aligned advance 8 from offset 0, strictly greater
than 0. -/
theorem carvers_advance_spec_witness : (0 : Nat) < 8 :=
  (carvers_advance_spec carver_witness_data 0
    (by rw [carver_witness_data_length]; norm_num [CARVE_WINDOW_THRESHOLD])).1 8
    (by rw [carver_witness_eval]; exact List.mem_singleton.mpr rfl)


/-! ## C1: create-then-rename timeline scenario -/

/-- C1: for a USN stream in which one file, keyed by
`file_addr-file_seq`, carries the reason sets `[FILE_CREATE|CLOSE]`,
`[RENAME_OLD_NAME|CLOSE]`, `[RENAME_NEW_NAME|CLOSE]` in order, the
prepare-USN timeline projection emits exactly one `FILE_CREATE` event
and exactly one `FILE_RENAME` event whose parameters carry the new
name/folder (`param1`, `param2`) and the stashed old name/folder
(`param3`, `param4`), and nothing else. -/
theorem prepare_usn_create_rename_scenario
    (a s : Nat) (t1 t2 t3 : ℚ) (n1 f1 fn1 n2 f2 fn2 n3 f3 fn3 : String) :
    prepare_usn_run usn_init
      [⟨t1, a, s, reason_to_hr (USN_REASON_FILE_CREATE ||| USN_REASON_CLOSE), n1, f1, fn1⟩,
       ⟨t2, a, s, reason_to_hr (USN_REASON_RENAME_OLD_NAME ||| USN_REASON_CLOSE), n2, f2, fn2⟩,
       ⟨t3, a, s, reason_to_hr (USN_REASON_RENAME_NEW_NAME ||| USN_REASON_CLOSE), n3, f3, fn3⟩] =
    (usn_init,
     [⟨t1, "usnjournal", "FILE_CREATE", fn1 ++ " created", n1, f1, "", ""⟩,
      ⟨t3, "usnjournal", "FILE_RENAME", fn2 ++ " renamed to " ++ fn3, n3, f3, n2, f2⟩]) := by
  have h1 : hr_reason_to_int (reason_to_hr (USN_REASON_FILE_CREATE ||| USN_REASON_CLOSE)) =
      2147483904 := by decide
  have h2 : hr_reason_to_int (reason_to_hr (USN_REASON_RENAME_OLD_NAME ||| USN_REASON_CLOSE)) =
      2147487744 := by decide
  have h3 : hr_reason_to_int (reason_to_hr (USN_REASON_RENAME_NEW_NAME ||| USN_REASON_CLOSE)) =
      2147491840 := by decide
  have ha1 : (2147483904 : Nat) &&& USN_REASON_FILE_CREATE ≠ 0 := by decide
  have ha2 : ¬((2147483904 : Nat) &&& USN_REASON_FILE_DELETE ≠ 0) := by decide
  have ha3 : ¬((2147483904 : Nat) &&& USN_REASON_RENAME_OLD_NAME ≠ 0) := by decide
  have ha4 : ¬((2147483904 : Nat) &&& USN_REASON_RENAME_NEW_NAME ≠ 0) := by decide
  have ha5 : (2147483904 : Nat) &&& USN_REASON_CLOSE ≠ 0 := by decide
  have hb1 : ¬((2147487744 : Nat) &&& USN_REASON_FILE_CREATE ≠ 0) := by decide
  have hb2 : ¬((2147487744 : Nat) &&& USN_REASON_FILE_DELETE ≠ 0) := by decide
  have hb3 : (2147487744 : Nat) &&& USN_REASON_RENAME_OLD_NAME ≠ 0 := by decide
  have hb4 : ¬((2147487744 : Nat) &&& USN_REASON_RENAME_NEW_NAME ≠ 0) := by decide
  have hb5 : (2147487744 : Nat) &&& USN_REASON_CLOSE ≠ 0 := by decide
  have hd1 : ¬((2147491840 : Nat) &&& USN_REASON_FILE_CREATE ≠ 0) := by decide
  have hd2 : ¬((2147491840 : Nat) &&& USN_REASON_FILE_DELETE ≠ 0) := by decide
  have hd3 : ¬((2147491840 : Nat) &&& USN_REASON_RENAME_OLD_NAME ≠ 0) := by decide
  have hd4 : (2147491840 : Nat) &&& USN_REASON_RENAME_NEW_NAME ≠ 0 := by decide
  have hd5 : (2147491840 : Nat) &&& USN_REASON_CLOSE ≠ 0 := by decide
  have st1 : prepare_usn_step usn_init
      ⟨t1, a, s, reason_to_hr (USN_REASON_FILE_CREATE ||| USN_REASON_CLOSE), n1, f1, fn1⟩ =
      (usn_init, [⟨t1, "usnjournal", "FILE_CREATE", fn1 ++ " created", n1, f1, "", ""⟩]) := by
    simp [prepare_usn_step, h1, ha1, ha2, ha3, ha4, ha5,
      dict_get, dict_set, dict_del, file_meta_key, usn_init]
  have st2 : prepare_usn_step usn_init
      ⟨t2, a, s, reason_to_hr (USN_REASON_RENAME_OLD_NAME ||| USN_REASON_CLOSE), n2, f2, fn2⟩ =
      (⟨[], [(toString a ++ "-" ++ toString s, (n2, f2, fn2))]⟩, []) := by
    simp [prepare_usn_step, h2, hb1, hb2, hb3, hb4, hb5,
      dict_get, dict_set, dict_del, file_meta_key, usn_init]
  have st3 : prepare_usn_step ⟨[], [(toString a ++ "-" ++ toString s, (n2, f2, fn2))]⟩
      ⟨t3, a, s, reason_to_hr (USN_REASON_RENAME_NEW_NAME ||| USN_REASON_CLOSE), n3, f3, fn3⟩ =
      (usn_init,
       [⟨t3, "usnjournal", "FILE_RENAME", fn2 ++ " renamed to " ++ fn3, n3, f3, n2, f2⟩]) := by
    simp [prepare_usn_step, h3, hd1, hd2, hd3, hd4, hd5,
      dict_get, dict_set, dict_del, file_meta_key, usn_init]
  simp only [prepare_usn_run, st1, st2, st3]
  simp

/-! ## C2: FILE_CREATE re-fire discipline -/

theorem land_close_iff (n : Nat) : n &&& USN_REASON_CLOSE ≠ 0 ↔ n.testBit 31 = true := by
  have h : USN_REASON_CLOSE = 2 ^ 31 := by decide
  rw [h, Nat.and_two_pow n 31]
  cases hb : n.testBit 31 <;> simp

theorem land_create_iff (n : Nat) :
    n &&& USN_REASON_FILE_CREATE ≠ 0 ↔ n.testBit 8 = true := by
  have h : USN_REASON_FILE_CREATE = 2 ^ 8 := by decide
  rw [h, Nat.and_two_pow n 8]
  cases hb : n.testBit 8 <;> simp

theorem step_new_states_testBit_le (st : USNTimelineState) (r : USNRecView) (i : Nat)
    (h : (step_new_states st r).testBit i = true) :
    (hr_reason_to_int r.reason).testBit i = true := by
  unfold step_new_states at h
  rcases hg : dict_get st.states_old (file_meta_key r) with _ | old <;> rw [hg] at h
  · exact h
  · rw [Nat.testBit_and] at h
    exact (Bool.and_eq_true _ _ ▸ h).1

theorem step_states_other (st : USNTimelineState) (r : USNRecView) (k : String)
    (hk : k ≠ file_meta_key r) :
    dict_get (prepare_usn_step st r).1.states_old k = dict_get st.states_old k := by
  simp only [prepare_usn_step]
  split_ifs <;>
    simp [dict_get_del_other _ _ _ hk, dict_get_set_other _ _ _ _ hk]

theorem step_states_same_set (st : USNTimelineState) (r : USNRecView)
    (hcl : (hr_reason_to_int r.reason).testBit 31 = false) :
    dict_get (prepare_usn_step st r).1.states_old (file_meta_key r) =
      some (hr_reason_to_int r.reason) := by
  have hclose : ¬(step_new_states st r &&& USN_REASON_CLOSE ≠ 0) := by
    rw [land_close_iff]
    simp only [Bool.not_eq_true]
    cases hb : (step_new_states st r).testBit 31
    · rfl
    · exact absurd (step_new_states_testBit_le st r 31 hb) (by rw [hcl]; simp)
  simp only [prepare_usn_step, step_new_states] at hclose ⊢
  rcases hg : dict_get st.states_old (file_meta_key r) with _ | old <;>
    rw [hg] at hclose <;> rw [if_neg hclose] <;> exact dict_get_set_self _ _ _

theorem step_fires_create_iff (st : USNTimelineState) (r : USNRecView) :
    step_fires_create st r = true ↔ step_new_states st r &&& USN_REASON_FILE_CREATE ≠ 0 := by
  simp only [step_fires_create, prepare_usn_step, step_new_states]
  rcases hg : dict_get st.states_old (file_meta_key r) with _ | old <;>
    split_ifs <;>
    (try simp_all [List.any_append]) <;>
    (split <;> simp_all)

theorem inv_no_fire (st : USNTimelineState) (r : USNRecView)
    (hinv : has_create_state st (file_meta_key r)) : step_fires_create st r = false := by
  obtain ⟨v, hv, hb⟩ := hinv
  rw [← Bool.not_eq_true, step_fires_create_iff]
  simp only [ne_eq, not_not]
  have hbit : (step_new_states st r).testBit 8 = false := by
    unfold step_new_states
    rw [hv, Nat.testBit_and, Nat.testBit_xor, hb]
    have h32 : (0xffffffff : Nat).testBit 8 = true := by decide
    rw [h32]
    simp
  have h8 : USN_REASON_FILE_CREATE = 2 ^ 8 := by decide
  rw [h8, Nat.and_two_pow, hbit]
  simp

theorem inv_step (st : USNTimelineState) (r : USNRecView) (k : String)
    (hinv : has_create_state st k)
    (hr : file_meta_key r = k → ((hr_reason_to_int r.reason).testBit 8 = true ∧
      (hr_reason_to_int r.reason).testBit 31 = false)) :
    has_create_state (prepare_usn_step st r).1 k := by
  by_cases hk : file_meta_key r = k
  · obtain ⟨hb8, hb31⟩ := hr hk
    subst hk
    exact ⟨hr_reason_to_int r.reason, step_states_same_set st r hb31, hb8⟩
  · obtain ⟨v, hv, hb⟩ := hinv
    refine ⟨v, ?_, hb⟩
    rw [step_states_other st r k (fun he => hk he.symm)]
    exact hv

theorem inv_run (seg : List USNRecView) :
    ∀ (st : USNTimelineState) (k : String), has_create_state st k →
      (∀ r ∈ seg, file_meta_key r = k → ((hr_reason_to_int r.reason).testBit 8 = true ∧
        (hr_reason_to_int r.reason).testBit 31 = false)) →
      has_create_state (prepare_usn_run st seg).1 k := by
  induction seg with
  | nil => intro st k hinv _; simpa [prepare_usn_run] using hinv
  | cons r rest ih =>
    intro st k hinv hall
    have h1 := inv_step st r k hinv (hall r (List.mem_cons_self _ _))
    have := ih (prepare_usn_step st r).1 k h1
      (fun r2 hr2 hk2 => hall r2 (List.mem_cons_of_mem _ hr2) hk2)
    simpa [prepare_usn_run] using this

theorem inv_establish (st : USNTimelineState) (r : USNRecView)
    (hf : step_fires_create st r = true)
    (hcl : (hr_reason_to_int r.reason).testBit 31 = false) :
    has_create_state (prepare_usn_step st r).1 (file_meta_key r) := by
  have hb8 : (hr_reason_to_int r.reason).testBit 8 = true := by
    have hc := (step_fires_create_iff st r).1 hf
    rw [land_create_iff] at hc
    exact step_new_states_testBit_le st r 8 hc
  exact ⟨hr_reason_to_int r.reason, step_states_same_set st r hcl, hb8⟩

theorem run_append_fst (l1 : List USNRecView) :
    ∀ (st : USNTimelineState) (l2 : List USNRecView),
      (prepare_usn_run st (l1 ++ l2)).1 = (prepare_usn_run (prepare_usn_run st l1).1 l2).1 := by
  induction l1 with
  | nil => intro st l2; simp [prepare_usn_run]
  | cons r rest ih =>
    intro st l2
    simp only [List.cons_append, prepare_usn_run]
    exact ih (prepare_usn_step st r).1 l2

/-- C2 (amended): in the new-bit projection of a single stream, a
`FILE_CREATE` timeline event for a given `file_addr-file_seq` key fires
a second time only if the firing record itself carried `CLOSE` (dropping
the per-file state) or some intervening record for the same key carried
`CLOSE` or lacked the `FILE_CREATE` bit; an intervening `FILE_DELETE`
event is not required. -/
theorem usn_timeline_create_refire_spec
    (pre mid : List USNRecView) (ri rj : USNRecView)
    (hkey : file_meta_key ri = file_meta_key rj)
    (hfi : step_fires_create (prepare_usn_run usn_init pre).1 ri = true)
    (hfj : step_fires_create (prepare_usn_run usn_init (pre ++ ri :: mid)).1 rj = true) :
    hr_reason_to_int ri.reason &&& USN_REASON_CLOSE ≠ 0 ∨
    ∃ r ∈ mid, file_meta_key r = file_meta_key ri ∧
      (hr_reason_to_int r.reason &&& USN_REASON_CLOSE ≠ 0 ∨
       hr_reason_to_int r.reason &&& USN_REASON_FILE_CREATE = 0) := by
  by_contra hcon
  push_neg at hcon
  obtain ⟨hclose_i, hmid⟩ := hcon
  have hbit_i : (hr_reason_to_int ri.reason).testBit 31 = false := by
    rw [← Bool.not_eq_true, ← land_close_iff]
    simpa using hclose_i
  have hinv1 : has_create_state
      (prepare_usn_step (prepare_usn_run usn_init pre).1 ri).1 (file_meta_key ri) :=
    inv_establish _ _ hfi hbit_i
  have hinv2 : has_create_state
      (prepare_usn_run (prepare_usn_step (prepare_usn_run usn_init pre).1 ri).1 mid).1
      (file_meta_key ri) := by
    refine inv_run mid _ _ hinv1 ?_
    intro r hr hk
    obtain ⟨hc, hcr⟩ := hmid r hr hk
    constructor
    · rw [← land_create_iff]
      simpa using hcr
    · rw [← Bool.not_eq_true, ← land_close_iff]
      simpa using hc
  have hdecomp : (prepare_usn_run usn_init (pre ++ ri :: mid)).1 =
      (prepare_usn_run (prepare_usn_step (prepare_usn_run usn_init pre).1 ri).1 mid).1 := by
    rw [run_append_fst]
    simp [prepare_usn_run]
  rw [hdecomp] at hfj
  rw [hkey] at hinv2
  exact absurd hfj (by rw [inv_no_fire _ _ hinv2]; simp)

/-- Witness for C2 on a concrete immediately-refiring stream. -/
theorem usn_timeline_create_refire_spec_witness :
    hr_reason_to_int (USNRecView.reason
        ⟨0, 5, 1, reason_to_hr (USN_REASON_FILE_CREATE ||| USN_REASON_CLOSE), "n", "f", "fn"⟩) &&&
      USN_REASON_CLOSE ≠ 0 ∨
    ∃ r ∈ ([] : List USNRecView),
      file_meta_key r = file_meta_key
        ⟨0, 5, 1, reason_to_hr (USN_REASON_FILE_CREATE ||| USN_REASON_CLOSE), "n", "f", "fn"⟩ ∧
      (hr_reason_to_int r.reason &&& USN_REASON_CLOSE ≠ 0 ∨
       hr_reason_to_int r.reason &&& USN_REASON_FILE_CREATE = 0) :=
  usn_timeline_create_refire_spec [] []
    ⟨0, 5, 1, reason_to_hr (USN_REASON_FILE_CREATE ||| USN_REASON_CLOSE), "n", "f", "fn"⟩
    ⟨0, 5, 1, reason_to_hr (USN_REASON_FILE_CREATE ||| USN_REASON_CLOSE), "n", "f", "fn"⟩
    rfl (by decide) (by decide)

/-- C2 counterexample: two `[FILE_CREATE|CLOSE]` records for the same
`(file_addr, file_seq)` pair produce two `FILE_CREATE` timeline events
with no `FILE_DELETE` between them, because `CLOSE` drops the per-file
state and re-arms the create trigger. -/
theorem usn_timeline_create_refire_counterexample :
    ((prepare_usn_run usn_init
      [⟨0, 5, 1, reason_to_hr (USN_REASON_FILE_CREATE ||| USN_REASON_CLOSE), "n", "f", "fn"⟩,
       ⟨0, 5, 1, reason_to_hr (USN_REASON_FILE_CREATE ||| USN_REASON_CLOSE), "n", "f", "fn"⟩]).2.map
      Timeline.event_type) = ["FILE_CREATE", "FILE_CREATE"] := by decide

/-! ## C10: stream position discipline -/

theorem File_seek_oob (size pos offset : Int) (whence : Nat)
    (h : offset < 0 ∨ size < offset) :
    File_seek size pos offset whence = .error "offset out of bounds" := by
  simp only [File_seek, if_pos h]

theorem File_run_bounds (size : Int) (hs : 0 ≤ size) (ops : List FileOp) :
    ∀ pos : Int, 0 ≤ pos → pos ≤ size → (∀ op ∈ ops, FileOpValid op) →
      0 ≤ File_run size pos ops ∧ File_run size pos ops ≤ size := by
  induction ops with
  | nil => intro pos h0 h1 _; simpa [File_run] using ⟨h0, h1⟩
  | cons op rest ih =>
    intro pos h0 h1 hv
    have hvrest : ∀ o ∈ rest, FileOpValid o := fun o ho => hv o (List.mem_cons_of_mem _ ho)
    cases op with
    | seekOp off wh =>
      have hoff : 0 ≤ off := hv _ (List.mem_cons_self _ _)
      simp only [File_run, File_seek]
      split_ifs <;>
        first
        | exact ih pos h0 h1 hvrest
        | exact ih _ (by omega) (by omega) hvrest
    | readOp sz avail =>
      have hsz : 0 ≤ sz := hv _ (List.mem_cons_self _ _)
      simp only [File_run, File_read_pos]
      split_ifs with hc1 hc2 <;>
        exact ih _ (by omega) (by omega) hvrest

theorem PW_seek_oob (w : PartitionWrapper) (offset : Int) (whence : Nat)
    (h : offset < 0 ∨ w.bytes_size < offset) :
    PW_seek w offset whence = .error "offset out of bounds" := by
  simp only [PW_seek, if_pos h]

theorem PW_run_bounds (ops : List PWOp) :
    ∀ w : PartitionWrapper, 0 ≤ w.read_byte_offset → w.read_byte_offset ≤ w.bytes_size →
      (∀ op ∈ ops, PWOpValid op) →
      0 ≤ (PW_run w ops).read_byte_offset ∧ (PW_run w ops).read_byte_offset ≤ w.bytes_size := by
  induction ops with
  | nil => intro w h0 h1 _; simpa [PW_run] using ⟨h0, h1⟩
  | cons op rest ih =>
    intro w h0 h1 hv
    have hb : (0 : Int) ≤ w.bytes_size := le_trans h0 h1
    have hvrest : ∀ o ∈ rest, PWOpValid o := fun o ho => hv o (List.mem_cons_of_mem _ ho)
    cases op with
    | seekOp off wh =>
      have hoff : 0 ≤ off := hv _ (List.mem_cons_self _ _)
      simp only [PW_run, PW_seek]
      split_ifs
      · exact ih w h0 h1 hvrest
      · exact ih _ (show (0:Int) ≤ min off w.bytes_size by omega)
          (show min off w.bytes_size ≤ w.bytes_size by omega) hvrest
      · exact ih _ (show (0:Int) ≤ min (w.read_byte_offset + off) w.bytes_size by omega)
          (show min (w.read_byte_offset + off) w.bytes_size ≤ w.bytes_size by omega) hvrest
      · exact ih _ (show (0:Int) ≤ max 0 (w.bytes_size - off) by omega)
          (show max 0 (w.bytes_size - off) ≤ w.bytes_size by omega) hvrest
      · exact ih w h0 h1 hvrest
    | readOp sz =>
      rcases sz with _ | s
      · simp only [PW_run, PW_read]
        split_ifs
        · exact ih w h0 h1 hvrest
        · exact ih _
            (show (0:Int) ≤ w.read_byte_offset + (w.bytes_size - w.read_byte_offset) by omega)
            (show w.read_byte_offset + (w.bytes_size - w.read_byte_offset) ≤ w.bytes_size by omega)
            hvrest
      · have hsz : (0:Int) ≤ s := hv _ (List.mem_cons_self _ _)
        simp only [PW_run, PW_read]
        split_ifs
        · exact ih w h0 h1 hvrest
        · exact ih _
            (show (0:Int) ≤ w.read_byte_offset + min s (w.bytes_size - w.read_byte_offset) by
              omega)
            (show w.read_byte_offset + min s (w.bytes_size - w.read_byte_offset) ≤ w.bytes_size by
              omega)
            hvrest

/-- C10: for every connected `File` (with its non-negative recorded
size) and every `PartitionWrapper`, under any call sequence of seeks and
reads with non-negative offset/size arguments the stream position stays
within `[0, size]`; a seek whose offset is negative or exceeds the size
raises `IOError` and leaves the position unchanged; and `SEEK_END`
positions at `max 0 (size - offset)`, counting backwards from the end. -/
theorem seek_read_position_spec :
    (∀ size : Int, 0 ≤ size → ∀ ops : List FileOp, (∀ op ∈ ops, FileOpValid op) →
      0 ≤ File_run size 0 ops ∧ File_run size 0 ops ≤ size) ∧
    (∀ (size pos offset : Int) (whence : Nat), offset < 0 ∨ size < offset →
      File_seek size pos offset whence = .error "offset out of bounds") ∧
    (∀ (size pos offset : Int) (whence : Nat) (rest : List FileOp),
      offset < 0 ∨ size < offset →
      File_run size pos (.seekOp offset whence :: rest) = File_run size pos rest) ∧
    (∀ size pos offset : Int, 0 ≤ offset → offset ≤ size →
      File_seek size pos offset 2 = .ok (max 0 (size - offset))) ∧
    (∀ (w : PartitionWrapper) (ops : List PWOp), 0 ≤ w.read_byte_offset →
      w.read_byte_offset ≤ w.bytes_size → (∀ op ∈ ops, PWOpValid op) →
      0 ≤ (PW_run w ops).read_byte_offset ∧ (PW_run w ops).read_byte_offset ≤ w.bytes_size) ∧
    (∀ (w : PartitionWrapper) (offset : Int) (whence : Nat),
      offset < 0 ∨ w.bytes_size < offset →
      PW_seek w offset whence = .error "offset out of bounds") ∧
    (∀ (w : PartitionWrapper) (offset : Int) (whence : Nat) (rest : List PWOp),
      offset < 0 ∨ w.bytes_size < offset →
      PW_run w (.seekOp offset whence :: rest) = PW_run w rest) ∧
    (∀ (w : PartitionWrapper) (offset : Int), 0 ≤ offset → offset ≤ w.bytes_size →
      PW_seek w offset 2 = .ok { w with read_byte_offset := max 0 (w.bytes_size - offset) }) := by
  refine ⟨?_, File_seek_oob, ?_, ?_, ?_, PW_seek_oob, ?_, ?_⟩
  · intro size hs ops hv
    exact File_run_bounds size hs ops 0 le_rfl hs hv
  · intro size pos offset whence rest h
    simp only [File_run, File_seek_oob size pos offset whence h]
  · intro size pos offset h0 h1
    simp only [File_seek, if_neg (show ¬(offset < 0 ∨ size < offset) by omega)]
    norm_num
  · intro w ops h0 h1 hv
    exact PW_run_bounds ops w h0 h1 hv
  · intro w offset whence rest h
    simp only [PW_run, PW_seek_oob w offset whence h]
  · intro w offset h0 h1
    simp only [PW_seek, if_neg (show ¬(offset < 0 ∨ w.bytes_size < offset) by omega)]
    norm_num

/-- Witness for C10 on a concrete call sequence. -/
theorem seek_read_position_spec_witness :
    0 ≤ File_run 10 0 [.seekOp 3 0, .readOp 5 100] ∧
    File_run 10 0 [.seekOp 3 0, .readOp 5 100] ≤ 10 :=
  seek_read_position_spec.1 10 (by norm_num) [.seekOp 3 0, .readOp 5 100]
    (by intro op hop
        fin_cases hop <;> norm_num [FileOpValid])

/-! ## C4: from_raw accept/reject conditions -/

theorem from_raw_reject_iff (raw : List Nat) :
    (from_raw raw).isOk = false ↔
      (raw.length < 60 ∨ usn_claim_reject_conditions raw = true ∨
       utf16_decode (bslice raw (le16 raw 58) (le16 raw 56)) = none) := by
  unfold from_raw usn_claim_reject_conditions
  by_cases h1 : raw.length < 60
  · simp [Except.isOk, Except.toBool, h1]
  rw [if_neg h1]
  by_cases h2 : le64 raw 32 < EPOCH_AS_FILETIME ∨ MAX_FILETIME < le64 raw 32
  · rw [if_pos h2]
    simp only [Except.isOk, Except.toBool, Bool.or_eq_true, decide_eq_true_eq, iff_true]
    rcases h2 with h2 | h2 <;> simp [h2]
  rw [if_neg h2]
  by_cases h3 : le64 raw 24 = 0
  · rw [if_pos h3]
    simp only [Except.isOk, Except.toBool, Bool.or_eq_true, decide_eq_true_eq, iff_true]
    simp [h3]
  rw [if_neg h3]
  by_cases h4 : le32 raw 40 = 0 ∨ le32 raw 40 &&& (0xffffffff ^^^ ALL_USN_REASON) ≠ 0
  · rw [if_pos h4]
    simp only [Except.isOk, Except.toBool, Bool.or_eq_true, decide_eq_true_eq, iff_true]
    rcases h4 with h4 | h4 <;> simp [h4]
  rw [if_neg h4]
  by_cases h5 : le32 raw 52 = 0 ∨ le32 raw 52 &&& (0xffffffff ^^^ ALL_FILE_ATTRIBUTE) ≠ 0
  · rw [if_pos h5]
    simp only [Except.isOk, Except.toBool, Bool.or_eq_true, decide_eq_true_eq, iff_true]
    rcases h5 with h5 | h5 <;> simp [h5]
  rw [if_neg h5]
  by_cases h6 : 0x0000000f < le32 raw 44
  · rw [if_pos h6]
    simp only [Except.isOk, Except.toBool, Bool.or_eq_true, decide_eq_true_eq, iff_true]
    simp [h6]
  rw [if_neg h6]
  by_cases h7 : le16 raw 56 % 2 ≠ 0 ∨ le16 raw 56 = 0
  · rw [if_pos h7]
    simp only [Except.isOk, Except.toBool, Bool.or_eq_true, decide_eq_true_eq, iff_true]
    rcases h7 with h7 | h7
    · have hm : le16 raw 56 % 2 = 1 := by omega
      simp [hm]
    · simp [h7]
  rw [if_neg h7]
  by_cases h8 : raw.length < le16 raw 58 + le16 raw 56
  · rw [if_pos h8]
    simp only [Except.isOk, Except.toBool, Bool.or_eq_true, decide_eq_true_eq, iff_true]
    simp [h8]
  rw [if_neg h8]
  rcases hdec : utf16_decode (bslice raw (le16 raw 58) (le16 raw 56)) with _ | cps
  · simp [Except.isOk, Except.toBool, hdec]
  simp only [hdec]
  by_cases h9 : 0 ∈ cps
  · rw [if_pos h9]
    simp only [Except.isOk, Except.toBool, Bool.or_eq_true, decide_eq_true_eq, iff_true]
    simp [h9]
  · rw [if_neg h9]
    simp only [Except.isOk, Except.toBool, Bool.or_eq_true, decide_eq_true_eq,
      Bool.true_eq_false, false_iff]
    push_neg at h2 h4 h5 h7
    intro hc
    rcases hc with hc | hc | hc
    · exact h1 hc
    · rcases hc with (((((((((((hc | hc) | hc) | hc) | hc) | hc) | hc) | hc) | hc) | hc) | hc) | hc)
      · exact absurd hc (by omega)
      · exact absurd hc (by omega)
      · exact h3 hc
      · exact h4.1 hc
      · exact hc h4.2
      · exact h5.1 hc
      · exact hc h5.2
      · exact h6 hc
      · exact h7.2 hc
      · exact absurd hc (by omega)
      · exact h8 hc
      · exact h9 hc
    · exact Option.noConfusion hc

/-- C4 (amended): `USNRecordV2.from_raw` rejects a raw record if and
only if the record is shorter than 60 bytes (the header unpack raises),
or one of the conditions enumerated by the claim holds (filetime out of
[1970-01-01, 2081-01-06], zero usn, zero/unknown reason bits,
zero/unknown attribute bits, source_info above 0x0f, zero or odd name
length, name overrunning the record, NUL in the decoded name), or the
UTF-16 decoding of the name fails (unpaired surrogate); otherwise it
returns a record.  A well-formed record with a 60-byte header is
accepted while a 59-byte record is rejected. -/
theorem from_raw_reject_spec :
    (∀ raw : List Nat, (from_raw raw).isOk = false ↔
      (raw.length < 60 ∨ usn_claim_reject_conditions raw = true ∨
       utf16_decode (bslice raw (le16 raw 58) (le16 raw 56)) = none)) ∧
    (from_raw usn_raw64_example).isOk = true ∧
    (from_raw usn_raw59_example).isOk = false :=
  ⟨from_raw_reject_iff, by decide, by decide⟩

/-- C4 counterexample: the 62-byte record whose name bytes are the
unpaired UTF-16 high surrogate `00 D8` is rejected by `from_raw`
although none of the conditions enumerated by the claim holds (and it is
not shorter than 60 bytes), so the claimed "if and only if" fails. -/
theorem from_raw_reject_counterexample :
    (from_raw usn_raw62_surrogate).isOk = false ∧
    usn_claim_reject_conditions usn_raw62_surrogate = false ∧
    ¬(usn_raw62_surrogate.length < 60) := by decide

end Dfxlibs
